import Mathlib

/-!
Shallow embedding of `src/jasonackerman/src/jasonackerman_control/scripts/keyboard_teleop.py`.

The script keeps a global list `state = [False, False, False, False]` of four
directional key flags (index 0 = UP/"w", 1 = LEFT/"a", 2 = DOWN/"s",
3 = RIGHT/"d") and a global boolean `control`, mutated by the Tkinter
handlers `keydown`/`keyup`, and a timer callback `publish_cb` that derives an
Ackermann drive command from the flags.  We embed the state as a structure of
five booleans, the handlers as pure state transformers, and the publish
callback as a function returning the (unchanged) state together with the
optionally published message.
-/

namespace KeyboardTeleop

/-- The logical key matched by `keyeq` in an event: the four directional keys
`UP = "w"`, `LEFT = "a"`, `DOWN = "s"`, `RIGHT = "d"`, the quit key
`QUIT = "q"`, or any other key (no branch of the handler matches). -/
inductive TKey where
  | up
  | left
  | down
  | right
  | quit
  | other
deriving DecidableEq, Repr

/-- The mutable globals of the script that the key handlers touch:
`state[0] .. state[3]` and `control`. -/
structure TeleopState where
  state0 : Bool
  state1 : Bool
  state2 : Bool
  state3 : Bool
  control : Bool
deriving DecidableEq, Repr

/-- The initial globals: `state = [False, False, False, False]`,
`control = False`. -/
def initState : TeleopState :=
  { state0 := false, state1 := false, state2 := false, state3 := false,
    control := false }

/-- Python treats `True` as 1 and `False` as 0 when summed. -/
def boolToNat (b : Bool) : Nat := if b then 1 else 0

/-- `sum(state)` over the four flags. -/
def sumState (st : TeleopState) : Nat :=
  boolToNat st.state0 + boolToNat st.state1 + boolToNat st.state2 +
    boolToNat st.state3

/-- The assignment `control = sum(state) > 0` executed at the end of both
`keyup` and `keydown`. -/
def recomputeControl (st : TeleopState) : TeleopState :=
  { st with control := decide (sumState st > 0) }

/-- The `keyup` handler: clear the flag of the released directional key (other
keys match no branch), then recompute `control`. -/
def keyup (k : TKey) (st : TeleopState) : TeleopState :=
  recomputeControl <|
    match k with
    | .up => { st with state0 := false }
    | .left => { st with state1 := false }
    | .down => { st with state2 := false }
    | .right => { st with state3 := false }
    | .quit => st
    | .other => st

/-- The `keydown` handler restricted to its effect on the flags: the QUIT
branch calls `shutdown()` (modelled separately below) and touches no flag;
the directional branches assign flags exactly as in the source; afterwards
`control` is recomputed unconditionally. -/
def keydown (k : TKey) (st : TeleopState) : TeleopState :=
  recomputeControl <|
    match k with
    | .quit => st
    | .up => { st with state0 := true, state2 := false }
    | .left => { st with state1 := false, state3 := true }
    | .down => { st with state0 := false, state2 := true }
    | .right => { st with state1 := true, state3 := false }
    | .other => st

/-- A UI event delivered to the frame: a key press (`<KeyPress>`, bound to
`keydown`) or a key release (`<KeyRelease>`, bound to `keyup`). -/
inductive Event where
  | keyPress (k : TKey)
  | keyRelease (k : TKey)
deriving DecidableEq, Repr

/-- Apply one event through the handler it is bound to. -/
def stepEvent (st : TeleopState) (e : Event) : TeleopState :=
  match e with
  | .keyPress k => keydown k st
  | .keyRelease k => keyup k st

/-- Run a sequence of events from the initial globals. -/
def runEvents (evs : List Event) : TeleopState :=
  evs.foldl stepEvent initState

/-- The fields of the `AckermannDriveStamped` message that `publish_cb`
assigns: `ack.drive.speed` and `ack.drive.steering_angle`.  The script only
ever writes exact decimal constants and parameter values into these floats,
so rationals embed them faithfully. -/
structure AckermannDrive where
  speed : ℚ
  steering_angle : ℚ
deriving DecidableEq, Repr

/-- The timer callback `publish_cb`, as a function of the two startup
parameters (`max_velocity`, `max_steering_angle`), the publisher handle
(`some ()` when `state_pub is not None`), and the shared globals.  It returns
the globals after the call (the body assigns only to the local `ack`) and the
message published on this tick, if any. -/
def publish_cb (max_velocity max_steering_angle : ℚ)
    (state_pub : Option Unit) (st : TeleopState) :
    TeleopState × Option AckermannDrive :=
  if !st.control then
    (st, none)
  else
    let ack : AckermannDrive := { speed := 0, steering_angle := 0 }
    let ack :=
      if st.state0 then { ack with speed := max_velocity }
      else if st.state2 then { ack with speed := -max_velocity }
      else ack
    let ack :=
      if st.state1 then { ack with steering_angle := max_steering_angle }
      else if st.state3 then { ack with steering_angle := -max_steering_angle }
      else ack
    match state_pub with
    | some _ => (st, some ack)
    | none => (st, none)

/-- The Tcl error raised by the toolkit when `destroy` is invoked on a window
whose application has already been destroyed. -/
inductive TclError where
  | destroyedApplication
deriving DecidableEq, Repr

/-- The state that the `shutdown` function touches: the global `root`
(`rootCreated` is `root is not None`; `rootDestroyed` records that
`root.destroy()` has run), the middleware shutdown flag set by
`rospy.signal_shutdown`, and a count of effective termination signals. -/
structure ShutdownWorld where
  rootCreated : Bool
  rootDestroyed : Bool
  shutdownRequested : Bool
  terminationCount : Nat
deriving DecidableEq, Repr

/-- Modelled from the spec: the external toolkit call `root.destroy()`.
Section 7 of the design requires shutdown to absorb the hazard that
"destroying an already-destroyed window" raises; accordingly the first
destroy succeeds and a second raises `TclError`. -/
def destroyRoot (w : ShutdownWorld) : Except TclError ShutdownWorld :=
  if w.rootDestroyed then
    .error .destroyedApplication
  else
    .ok { w with rootDestroyed := true }

/-- Modelled from the spec: the external call `rospy.signal_shutdown`, which
per section 7 absorbs "signaling an already-shutting-down process"
idempotently — only the first signal takes effect. -/
def signal_shutdown (w : ShutdownWorld) : ShutdownWorld :=
  if w.shutdownRequested then w
  else { w with shutdownRequested := true,
                terminationCount := w.terminationCount + 1 }

/-- The `shutdown` function of the script: `if root: root.destroy()` followed
by `rospy.signal_shutdown("shutdown")`.  The Python guard `if root:` tests
truthiness of the object, which only distinguishes `None` from a window
object — a destroyed window object is still truthy, so the guard re-enters
`destroy` and the `TclError` propagates (there is no try/except). -/
def shutdown (w : ShutdownWorld) : Except TclError ShutdownWorld :=
  if w.rootCreated then
    match destroyRoot w with
    | .ok w' => .ok (signal_shutdown w')
    | .error e => .error e
  else
    .ok (signal_shutdown w)

/-! ## Helper lemmas shared by the claim theorems -/

/-- `sum(state) > 0` agrees with the disjunction of the four flags. -/
theorem sumState_pos_iff_or (st : TeleopState) :
    decide (sumState st > 0) =
      (st.state0 || st.state1 || st.state2 || st.state3) := by
  rcases st with ⟨a, b, c, d, ctl⟩
  cases a <;> cases b <;> cases c <;> cases d <;> rfl

/-- After `recomputeControl`, the `control` field is the disjunction of the
(unchanged) four flags. -/
theorem recomputeControl_control (st : TeleopState) :
    (recomputeControl st).control =
      ((recomputeControl st).state0 || (recomputeControl st).state1 ||
        (recomputeControl st).state2 || (recomputeControl st).state3) :=
  sumState_pos_iff_or st

/-- Every single event re-establishes `control = OR of flags`. -/
theorem stepEvent_control (st : TeleopState) (e : Event) :
    (stepEvent st e).control =
      ((stepEvent st e).state0 || (stepEvent st e).state1 ||
        (stepEvent st e).state2 || (stepEvent st e).state3) := by
  cases e with
  | keyPress k => cases k <;> exact recomputeControl_control _
  | keyRelease k => cases k <;> exact recomputeControl_control _

/-- Consistency of `control` is preserved along any fold of events. -/
theorem foldl_control (evs : List Event) (st : TeleopState)
    (h : st.control =
      (st.state0 || st.state1 || st.state2 || st.state3)) :
    (evs.foldl stepEvent st).control =
      ((evs.foldl stepEvent st).state0 || (evs.foldl stepEvent st).state1 ||
        (evs.foldl stepEvent st).state2 || (evs.foldl stepEvent st).state3) := by
  induction evs generalizing st with
  | nil => exact h
  | cons e evs ih => exact ih (stepEvent st e) (stepEvent_control st e)

/-- Mutual exclusion of the two opposite pairs, as a predicate. -/
def mutex (st : TeleopState) : Prop :=
  (st.state0 && st.state2) = false ∧ (st.state1 && st.state3) = false

instance (st : TeleopState) : Decidable (mutex st) := by
  unfold mutex
  infer_instance

/-- Each single event preserves mutual exclusion of opposite flags. -/
theorem stepEvent_mutex (st : TeleopState) (e : Event) (h : mutex st) :
    mutex (stepEvent st e) := by
  rcases st with ⟨a, b, c, d, ctl⟩
  rcases h with ⟨h02, h13⟩
  revert h02 h13
  cases e with
  | keyPress k =>
      cases k <;> cases a <;> cases b <;> cases c <;> cases d <;> cases ctl <;>
        decide
  | keyRelease k =>
      cases k <;> cases a <;> cases b <;> cases c <;> cases d <;> cases ctl <;>
        decide

/-- Mutual exclusion is preserved along any fold of events. -/
theorem foldl_mutex (evs : List Event) (st : TeleopState) (h : mutex st) :
    mutex (evs.foldl stepEvent st) := by
  induction evs generalizing st with
  | nil => exact h
  | cons e evs ih => exact ih (stepEvent st e) (stepEvent_mutex st e h)

/-! ## Claim theorems -/

/-- C1: the key-press handler implements exactly the §4.1 transition table:
press-forward sets `state[0] = True, state[2] = False`; press-backward sets
`state[0] = False, state[2] = True`; press-left sets
`state[1] = False, state[3] = True`; press-right sets
`state[1] = True, state[3] = False`; each press leaves the two flags of the
other axis unchanged. -/
theorem c1_keydown_transition_table (st : TeleopState) :
    ((keydown .up st).state0 = true ∧ (keydown .up st).state2 = false ∧
      (keydown .up st).state1 = st.state1 ∧
      (keydown .up st).state3 = st.state3) ∧
    ((keydown .down st).state0 = false ∧ (keydown .down st).state2 = true ∧
      (keydown .down st).state1 = st.state1 ∧
      (keydown .down st).state3 = st.state3) ∧
    ((keydown .left st).state1 = false ∧ (keydown .left st).state3 = true ∧
      (keydown .left st).state0 = st.state0 ∧
      (keydown .left st).state2 = st.state2) ∧
    ((keydown .right st).state1 = true ∧ (keydown .right st).state3 = false ∧
      (keydown .right st).state0 = st.state0 ∧
      (keydown .right st).state2 = st.state2) :=
  ⟨⟨rfl, rfl, rfl, rfl⟩, ⟨rfl, rfl, rfl, rfl⟩, ⟨rfl, rfl, rfl, rfl⟩,
    ⟨rfl, rfl, rfl, rfl⟩⟩

/-- C2: along every sequence of press/release events from the initial
all-false state, at most one of `{state[0], state[2]}` (forward/backward) and
at most one of `{state[1], state[3]}` (left/right as mapped) is true. -/
theorem c2_opposite_flags_mutually_exclusive (evs : List Event) :
    ((runEvents evs).state0 && (runEvents evs).state2) = false ∧
    ((runEvents evs).state1 && (runEvents evs).state3) = false :=
  foldl_mutex evs initState ⟨rfl, rfl⟩

/-- C3: in a state with at least one flag set and `control` consistent with
the flags (as every handler re-establishes), a tick with the publisher
present emits exactly one message, with speed `+max_velocity` if `state[0]`,
`-max_velocity` elif `state[2]`, else 0, and steering `+max_steering_angle`
if `state[1]`, `-max_steering_angle` elif `state[3]`, else 0. -/
theorem c3_publish_command_formula (v a : ℚ) (st : TeleopState)
    (hflag : (st.state0 || st.state1 || st.state2 || st.state3) = true)
    (hctl : st.control = (st.state0 || st.state1 || st.state2 || st.state3)) :
    (publish_cb v a (some ()) st).2 =
      some { speed := if st.state0 then v else if st.state2 then -v else 0,
             steering_angle :=
               if st.state1 then a else if st.state3 then -a else 0 } := by
  rcases st with ⟨s0, s1, s2, s3, ctl⟩
  dsimp only at hctl hflag ⊢
  subst hctl
  cases s0 <;> cases s1 <;> cases s2 <;> cases s3 <;>
    first
      | rfl
      | exact absurd hflag (by decide)

/-- C3 witness: with only `state[3]` (the right-mapped flag) set and
`max_steering_angle = 0.6`, the tick emits `{speed = 0, steering = -0.6}`. -/
theorem c3_publish_command_formula_witness :
    (publish_cb 2 (6 / 10) (some ())
        { state0 := false, state1 := false, state2 := false, state3 := true,
          control := true }).2 =
      some { speed := 0, steering_angle := -(6 / 10) } := by
  have h := c3_publish_command_formula 2 (6 / 10)
      { state0 := false, state1 := false, state2 := false, state3 := true,
        control := true } (by decide) (by decide)
  simpa using h

/-- C4: in every state reachable by an event sequence in which all four
directional flags are false, the publisher tick emits no message (whatever
the parameters and publisher handle). -/
theorem c4_no_message_when_all_flags_false (evs : List Event) (v a : ℚ)
    (pub : Option Unit)
    (h0 : (runEvents evs).state0 = false) (h1 : (runEvents evs).state1 = false)
    (h2 : (runEvents evs).state2 = false)
    (h3 : (runEvents evs).state3 = false) :
    (publish_cb v a pub (runEvents evs)).2 = none := by
  have hc : (runEvents evs).control =
      ((runEvents evs).state0 || (runEvents evs).state1 ||
        (runEvents evs).state2 || (runEvents evs).state3) :=
    foldl_control evs initState rfl
  rw [h0, h1, h2, h3] at hc
  simp only [Bool.or_false] at hc
  simp [publish_cb, hc]

/-- C4 witness: on the empty event sequence all flags are false and a tick
with the publisher present emits nothing. -/
theorem c4_no_message_when_all_flags_false_witness :
    (publish_cb 2 (6 / 10) (some ()) (runEvents [])).2 = none :=
  c4_no_message_when_all_flags_false [] 2 (6 / 10) (some ()) rfl rfl rfl rfl

/-- C5: after every event sequence from the initial state, `control` equals
the disjunction of the four directional flags. -/
theorem c5_control_is_or_of_flags (evs : List Event) :
    (runEvents evs).control =
      ((runEvents evs).state0 || (runEvents evs).state1 ||
        (runEvents evs).state2 || (runEvents evs).state3) :=
  foldl_control evs initState rfl

/-- C6 (failing input for the claim): with the window created, the first
`shutdown` call succeeds and signals termination once, but a second call
raises `TclError`: `root` is still a truthy (destroyed) object, so
`if root: root.destroy()` re-enters `destroy` on the destroyed application.
The claim that double shutdown raises no exception fails on the code. -/
theorem c6_second_shutdown_raises :
    shutdown { rootCreated := true, rootDestroyed := false,
               shutdownRequested := false, terminationCount := 0 } =
      .ok { rootCreated := true, rootDestroyed := true,
            shutdownRequested := true, terminationCount := 1 } ∧
    shutdown { rootCreated := true, rootDestroyed := true,
               shutdownRequested := true, terminationCount := 1 } =
      .error .destroyedApplication :=
  ⟨rfl, rfl⟩

/-- C7: releasing a directional key clears exactly that key's flag and leaves
the other three flags unchanged; and when `control` is consistent with the
flags, releasing a key whose flag is already false leaves the entire state
(all four flags and `control`) unchanged. -/
theorem c7_keyup_clears_only_own_flag (st : TeleopState) :
    ((keyup .up st).state0 = false ∧ (keyup .up st).state1 = st.state1 ∧
      (keyup .up st).state2 = st.state2 ∧
      (keyup .up st).state3 = st.state3) ∧
    ((keyup .left st).state1 = false ∧ (keyup .left st).state0 = st.state0 ∧
      (keyup .left st).state2 = st.state2 ∧
      (keyup .left st).state3 = st.state3) ∧
    ((keyup .down st).state2 = false ∧ (keyup .down st).state0 = st.state0 ∧
      (keyup .down st).state1 = st.state1 ∧
      (keyup .down st).state3 = st.state3) ∧
    ((keyup .right st).state3 = false ∧ (keyup .right st).state0 = st.state0 ∧
      (keyup .right st).state1 = st.state1 ∧
      (keyup .right st).state2 = st.state2) ∧
    (st.control = (st.state0 || st.state1 || st.state2 || st.state3) →
      ((st.state0 = false → keyup .up st = st) ∧
        (st.state1 = false → keyup .left st = st) ∧
        (st.state2 = false → keyup .down st = st) ∧
        (st.state3 = false → keyup .right st = st))) := by
  rcases st with ⟨a, b, c, d, ctl⟩
  refine ⟨⟨rfl, rfl, rfl, rfl⟩, ⟨rfl, rfl, rfl, rfl⟩, ⟨rfl, rfl, rfl, rfl⟩,
    ⟨rfl, rfl, rfl, rfl⟩, ?_⟩
  cases a <;> cases b <;> cases c <;> cases d <;> cases ctl <;> decide

/-- C7 witness: releasing the forward key in the initial state (its flag
already false, `control` consistent) changes nothing. -/
theorem c7_keyup_clears_only_own_flag_witness :
    keyup .up initState = initState :=
  ((c7_keyup_clears_only_own_flag initState).2.2.2.2 rfl).1 rfl

/-- C8: from the all-false initial state, press-forward, press-backward,
release-backward ends with all flags false and `control = false` — the whole
state is back to the initial one, in particular `state[0]` is not true. -/
theorem c8_press_forward_backward_release_backward :
    runEvents [.keyPress .up, .keyPress .down, .keyRelease .down] =
      initState ∧
    (runEvents [.keyPress .up, .keyPress .down,
        .keyRelease .down]).state0 = false ∧
    (runEvents [.keyPress .up, .keyPress .down,
        .keyRelease .down]).state2 = false ∧
    (runEvents [.keyPress .up, .keyPress .down,
        .keyRelease .down]).control = false := by
  decide

/-- C9: when the publisher handle is `None`, the tick is a total no-op on
every state: it publishes nothing, changes nothing, and (being a total
function) raises no error. -/
theorem c9_absent_publisher_skipped (v a : ℚ) (st : TeleopState) :
    publish_cb v a none st = (st, none) := by
  rcases st with ⟨s0, s1, s2, s3, ctl⟩
  cases ctl <;> rfl

/-- C10: the publisher tick never mutates the shared state: for every
parameter pair, publisher handle and state, the state after `publish_cb` is
the state before it. -/
theorem c10_publish_cb_preserves_state (v a : ℚ) (pub : Option Unit)
    (st : TeleopState) : (publish_cb v a pub st).1 = st := by
  rcases st with ⟨s0, s1, s2, s3, ctl⟩
  cases ctl <;> cases pub <;> rfl

end KeyboardTeleop
